import Mathlib

/-!
Verification of the EEVBlog 121GW Bluetooth-LE multimeter telemetry decoder
(`src/pymeasure/instruments/eevblog/eevblog121GW.py`).

The embedding models the three pieces of stateful logic of class
`EEVBlog121GW`:

* `parse_121GW_data` — checksum validation and bit-unpacking of a 19-byte
  frame into the reading fields (`main_mode_short`, `main_mode_long`,
  `main_range`, `main_value_float`) plus the `is_new_value` flag;
* `notification_handler` — the streaming reassembler that scans for the
  `0xF2` start marker, accumulates 19-byte frames and hands them to the
  decoder;
* the `reading` property — clear the `is_new_value` flag, busy-wait up to
  2 seconds (`end = time.time() + 2`) for a new decode, return
  `main_value_float` on success and the sentinel `0.0` on timeout.

Modelling conventions:

* bytes are `Nat` (values delivered by the BLE stack are 0..255; theorems
  that need the bound carry it as a hypothesis);
* Python floats are modelled as exact rationals (`ℚ`); `10 ** r` for the
  integer range exponent `r` is `(10 : ℚ) ^ (r : ℤ)`, and the overflow
  literal `9.9E37` is the exact rational `99 * 10 ^ 36`;
* a Python `IndexError` escaping a statement is modelled by returning the
  mutated-so-far state together with the flag `true` in the second
  component of the result (the instance attributes assigned before the
  raising statement keep their new values, exactly as in CPython);
* `data[i]` is modelled by `List.getD data i 0`; all frames handled by the
  reassembler have exactly 19 bytes, so the default is never consulted on
  the runs the theorems speak about;
* the field `log` of `MeterState` is a specification-only ghost variable:
  it records the sequence of committed readings so that statements about
  "the same sequence of decoded Readings" can be phrased as state
  equality.  It has no counterpart in the source and no source statement
  reads it.
-/

/-- One committed reading: unit label, display label, decimal exponent,
decoded value.  (`main_mode_short`, `main_mode_long`, `main_range`,
`main_value_float` in the source.) -/
structure Reading121 where
  unit : String
  label : String
  range : Int
  value : ℚ
deriving DecidableEq

/-- The mutable attributes of an `EEVBlog121GW` instance that the decoder,
the reassembler and the `reading` property touch. -/
structure MeterState where
  buffer : List Nat
  is_waiting_for_start : Bool
  is_new_value : Bool
  main_mode_short : String
  main_mode_long : String
  main_range : Int
  main_value_float : ℚ
  /-- Ghost history of committed readings (specification only). -/
  log : List Reading121
deriving DecidableEq

/-- `MODE_RANGE_LIST`: the fixed 25-entry mode table.  Each entry is
(unit label, display label, list of decimal exponents indexed by the
4-bit range index). -/
def MODE_RANGE_LIST : List (String × String × List Int) :=
  [ ("V",   "Voltage Low Z (V)", [-1]                   ), --  0
    ("V",   "Voltage DC (V)",    [-4,-3,-2,-1]          ), --  1
    ("V",   "Voltage AC (V)",    [-4,-3,-2,-1]          ), --  2
    ("mV",  "Voltage DC (mV)",   [-6, -5]               ), --  3
    ("mV",  "Voltage AC (mV)",   [-6, -5]               ), --  4
    ("°C",  "Temp (°C)",         [-1]                   ), --  5
    ("Hz",  "Frequency (Hz)",    [-3,-2,-1,0,1]         ), --  6
    ("s",   "Period (s)",        [-4,-3,-2]             ), --  7
    ("%",   "Duty (%)",          [-1]                   ), --  8
    ("Ω",   "Resistance (Ω)",    [-3,-2,-1,0,1,2,3]     ), --  9
    ("Ω",   "Continuity (Ω)",    [-2]                   ), -- 10
    ("V",   "Diode (V)",         [-4,-3]                ), -- 11
    ("F",   "Capacitance (F)",   [-12,-11,-10,-9,-8,-6] ), -- 12
    ("uVA", "Power AC (uVA)",    [-8,-7,-7,-6]          ), -- 13
    ("mVA", "Power AC (mVA)",    [-6,-5,-5,-4]          ), -- 14
    ("VA",  "Power AC (VA)",     [-4,-3,-3,-2]          ), -- 15
    ("uA",  "Current AC (uA)",   [-9,-8]                ), -- 16
    ("uA",  "Current DC (uA)",   [-9,-8]                ), -- 17
    ("mA",  "Current AC (mA)",   [-7,-6]                ), -- 18
    ("mA",  "Current DC (mA)",   [-7,-6]                ), -- 19
    ("A",   "Current AC (A)",    [-5,-4,-3]             ), -- 20
    ("A",   "Current DC (A)",    [-5,-4,-3]             ), -- 21
    ("uVA", "Power DC (uVA)",    [-8,-7,-7,-6]          ), -- 22
    ("mVA", "Power DC (mVA)",    [-6,-5,-5,-4]          ), -- 23
    ("VA",  "Power DC (VA)",     [-4,-3,-3,-2]          )  -- 24
  ]

/-- The checksum loop of `parse_121GW_data`:
`for i in range(18): calculated_checksum ^= data[i]`. -/
def xor_checksum (data : List Nat) : Nat :=
  (List.range 18).foldl (fun acc i => acc ^^^ data.getD i 0) 0

/-- `parse_121GW_data(self, data)`.  Returns the state after the call and
`true` when the call raised an `IndexError` (out-of-range mode/range
index), `false` on normal return.  Statement-by-statement translation:

* checksum mismatch: plain `return` — state unchanged, no error;
* `self.main_mode_short = self.MODE_RANGE_LIST[main_mode_idx][0]` raises
  before assigning anything when `main_mode_idx` is past the table;
* `self.main_range = self.MODE_RANGE_LIST[main_mode_idx][2][main_range_idx]`
  raises after `main_mode_short` and `main_mode_long` were assigned;
* `9.9E37` is written as the exact rational `99 * 10 ^ 36`;
* bytes 9–17 are read into local variables (`sub_mode`, …,
  `icon_status_3`) that are never stored on `self`; they have no state
  effect and are omitted;
* on success `self.is_new_value = True`, and the ghost `log` records the
  committed reading. -/
def parse_121GW_data (s : MeterState) (data : List Nat) : MeterState × Bool :=
  let calculated_checksum := xor_checksum data
  if calculated_checksum ≠ data.getD 18 0 then
    (s, false)
  else
    let main_mode_idx := data.getD 5 0 &&& 0x1F
    let main_range_idx := data.getD 6 0 &&& 0x0F
    match MODE_RANGE_LIST[main_mode_idx]? with
    | none => (s, true)
    | some entry =>
      let s1 := { s with main_mode_short := entry.1, main_mode_long := entry.2.1 }
      match entry.2.2[main_range_idx]? with
      | none => (s1, true)
      | some rng =>
        let s2 := { s1 with main_range := rng }
        let main_sign : ℚ := if (data.getD 6 0 >>> 6) &&& 0x01 ≠ 0 then -1 else 1
        let s3 :=
          if (data.getD 6 0 >>> 7) &&& 0x01 ≠ 0 then  -- OFL
            { s2 with main_value_float := 99 * 10 ^ 36 * main_sign }
          else
            let main_value :=
              (((data.getD 5 0 <<< 10) &&& 0x030000) ||| (data.getD 7 0 <<< 8))
                ||| data.getD 8 0
            { s2 with main_value_float :=
                (main_value : ℚ) * main_sign * (10 : ℚ) ^ s2.main_range }
        ({ s3 with
            is_new_value := true,
            log := s3.log ++ [⟨s3.main_mode_short, s3.main_mode_long,
                              s3.main_range, s3.main_value_float⟩] }, false)

/-- The body of the `for byte in data` loop of `notification_handler`.
Returns the state after processing one byte and `true` when an
`IndexError` escaped from `parse_121GW_data` (in which case
`self.buffer.clear()` and the reset of `is_waiting_for_start` are
skipped). -/
def notificationStep (s : MeterState) (byte : Nat) : MeterState × Bool :=
  if s.is_waiting_for_start then
    if byte = 0xF2 then
      ({ s with is_waiting_for_start := false, buffer := s.buffer ++ [byte] }, false)
    else
      (s, false)
  else
    let s1 := { s with buffer := s.buffer ++ [byte] }
    if s1.buffer.length > 18 then
      if s1.buffer.length = 19 then
        match parse_121GW_data s1 s1.buffer with
        | (s2, true) => (s2, true)
        | (s2, false) =>
          ({ s2 with buffer := [], is_waiting_for_start := true }, false)
      else
        ({ s1 with buffer := [], is_waiting_for_start := true }, false)
    else
      (s1, false)

/-- `notification_handler(self, data)`: process the chunk byte by byte; an
`IndexError` escaping the decoder aborts the loop (the remaining bytes of
the chunk are never seen). -/
def notification_handler : MeterState → List Nat → MeterState × Bool
  | s, [] => (s, false)
  | s, byte :: rest =>
    match notificationStep s byte with
    | (s1, true) => (s1, true)
    | (s1, false) => notification_handler s1 rest

/-- Successive calls of `notification_handler`, one per BLE notification
delivery.  An exception escaping one call propagates into the BLE
dispatch trampoline; the object survives with its attributes as mutated,
and the next notification is delivered to the same handler, so delivery
of the remaining chunks continues. -/
def deliverChunks (s : MeterState) (chunks : List (List Nat)) : MeterState :=
  chunks.foldl (fun st c => (notification_handler st c).1) s

/-- `end = time.time() + 2` in the `reading` property: the fixed wait
window, in seconds. -/
def reading_timeout_seconds : Nat := 2

/-- The busy-wait loop of the `reading` property.  The reader polls
`is_new_value` between notification deliveries; `arrivals` is the
sequence of chunks the BLE stack delivers before the 2-second window
expires.  When the flag is seen set, the property returns
`self.main_value_float`; when the window expires first (`arrivals`
exhausted) it prints "121GW Time out" and returns the sentinel `0.0`. -/
def readingLoop : MeterState → List (List Nat) → ℚ × MeterState
  | s, [] => (0, s)
  | s, c :: rest =>
    let s1 := (notification_handler s c).1
    if s1.is_new_value then (s1.main_value_float, s1) else readingLoop s1 rest

/-- The `reading` property: `self.is_new_value = False` on entry, then
busy-wait. -/
def reading (s : MeterState) (arrivals : List (List Nat)) : ℚ × MeterState :=
  readingLoop { s with is_new_value := false } arrivals

/-- The attribute values established by `__init__`.  `main_value_float`
is not assigned in `__init__` (it first exists after the first decode);
it is modelled with initial value `0`.  `log` is the specification ghost,
initially empty. -/
def initState : MeterState :=
  { buffer := []
    is_waiting_for_start := true
    is_new_value := false
    main_mode_short := ""
    main_mode_long := ""
    main_range := 0
    main_value_float := 0
    log := [] }

/-! ### Equation lemmas for `parse_121GW_data`, one per control path -/

/-- Checksum mismatch: plain `return`, state untouched, no exception. -/
lemma parse_checksum_fail (s : MeterState) (d : List Nat)
    (hc : xor_checksum d ≠ d.getD 18 0) :
    parse_121GW_data s d = (s, false) := by
  simp only [parse_121GW_data]
  rw [if_pos hc]

/-- Mode index past the table: `IndexError` before any attribute is
assigned. -/
lemma parse_mode_oob (s : MeterState) (d : List Nat)
    (hc : xor_checksum d = d.getD 18 0)
    (hm : MODE_RANGE_LIST[d.getD 5 0 &&& 0x1F]? = (none : Option (String × String × List Int))) :
    parse_121GW_data s d = (s, true) := by
  simp only [parse_121GW_data]
  rw [if_neg (not_not_intro hc)]
  simp only [hm]

/-- Range index past the mode exponent list: `IndexError` after
`main_mode_short` and `main_mode_long` were assigned. -/
lemma parse_range_oob (s : MeterState) (d : List Nat)
    (entry : String × String × List Int)
    (hc : xor_checksum d = d.getD 18 0)
    (hm : MODE_RANGE_LIST[d.getD 5 0 &&& 0x1F]? = some entry)
    (hr : entry.2.2[d.getD 6 0 &&& 0x0F]? = (none : Option Int)) :
    parse_121GW_data s d =
      ({ s with main_mode_short := entry.1, main_mode_long := entry.2.1 }, true) := by
  simp only [parse_121GW_data]
  rw [if_neg (not_not_intro hc)]
  simp only [hm, hr]

/-- Overflow branch: all lookups succeed and byte 6 bit 7 is set. -/
lemma parse_overflow (s : MeterState) (d : List Nat)
    (entry : String × String × List Int) (rng : Int)
    (hc : xor_checksum d = d.getD 18 0)
    (hm : MODE_RANGE_LIST[d.getD 5 0 &&& 0x1F]? = some entry)
    (hr : entry.2.2[d.getD 6 0 &&& 0x0F]? = some rng)
    (hofl : (d.getD 6 0 >>> 7) &&& 0x01 ≠ 0) :
    parse_121GW_data s d =
      ({ s with
          main_mode_short := entry.1
          main_mode_long := entry.2.1
          main_range := rng
          main_value_float :=
            99 * 10 ^ 36 * (if (d.getD 6 0 >>> 6) &&& 0x01 ≠ 0 then (-1 : ℚ) else 1)
          is_new_value := true
          log := s.log ++ [⟨entry.1, entry.2.1, rng,
            99 * 10 ^ 36 * (if (d.getD 6 0 >>> 6) &&& 0x01 ≠ 0 then (-1 : ℚ) else 1)⟩] },
        false) := by
  simp only [parse_121GW_data]
  rw [if_neg (not_not_intro hc)]
  simp only [hm, hr]
  rw [if_pos hofl]
  rfl

/-- Normal branch: lookups succeed, overflow bit clear; the 18-bit
mantissa is reconstructed and scaled. -/
lemma parse_normal (s : MeterState) (d : List Nat)
    (entry : String × String × List Int) (rng : Int)
    (hc : xor_checksum d = d.getD 18 0)
    (hm : MODE_RANGE_LIST[d.getD 5 0 &&& 0x1F]? = some entry)
    (hr : entry.2.2[d.getD 6 0 &&& 0x0F]? = some rng)
    (hofl : (d.getD 6 0 >>> 7) &&& 0x01 = 0) :
    parse_121GW_data s d =
      ({ s with
          main_mode_short := entry.1
          main_mode_long := entry.2.1
          main_range := rng
          main_value_float :=
            (((((d.getD 5 0 <<< 10) &&& 0x030000) ||| (d.getD 7 0 <<< 8))
                ||| d.getD 8 0 : ℕ) : ℚ)
              * (if (d.getD 6 0 >>> 6) &&& 0x01 ≠ 0 then (-1 : ℚ) else 1)
              * (10 : ℚ) ^ rng
          is_new_value := true
          log := s.log ++ [⟨entry.1, entry.2.1, rng,
            (((((d.getD 5 0 <<< 10) &&& 0x030000) ||| (d.getD 7 0 <<< 8))
                ||| d.getD 8 0 : ℕ) : ℚ)
              * (if (d.getD 6 0 >>> 6) &&& 0x01 ≠ 0 then (-1 : ℚ) else 1)
              * (10 : ℚ) ^ rng⟩] },
        false) := by
  simp only [parse_121GW_data]
  rw [if_neg (not_not_intro hc)]
  simp only [hm, hr]
  rw [if_neg (not_not_intro hofl)]

/-- Whether `parse_121GW_data` raises is determined by the frame alone,
not by the prior state. -/
lemma parse_snd_state_free (s t : MeterState) (d : List Nat) :
    (parse_121GW_data s d).2 = (parse_121GW_data t d).2 := by
  by_cases hc : xor_checksum d = d.getD 18 0
  · rcases hm : MODE_RANGE_LIST[d.getD 5 0 &&& 0x1F]? with _ | entry
    · rw [parse_mode_oob s d hc hm, parse_mode_oob t d hc hm]
    · rcases hr : entry.2.2[d.getD 6 0 &&& 0x0F]? with _ | rng
      · rw [parse_range_oob s d entry hc hm hr, parse_range_oob t d entry hc hm hr]
      · by_cases hofl : (d.getD 6 0 >>> 7) &&& 0x01 = 0
        · rw [parse_normal s d entry rng hc hm hr hofl,
              parse_normal t d entry rng hc hm hr hofl]
        · rw [parse_overflow s d entry rng hc hm hr hofl,
              parse_overflow t d entry rng hc hm hr hofl]
  · rw [parse_checksum_fail s d hc, parse_checksum_fail t d hc]

/-- On a successful decode the committed `main_value_float` is a function
of the frame alone (latest-wins: the previous reading does not bleed
into the new one). -/
lemma parse_value_state_free (s t : MeterState) (d : List Nat)
    (hc : xor_checksum d = d.getD 18 0)
    (he : (parse_121GW_data s d).2 = false) :
    (parse_121GW_data s d).1.main_value_float
      = (parse_121GW_data t d).1.main_value_float := by
  rcases hm : MODE_RANGE_LIST[d.getD 5 0 &&& 0x1F]? with _ | entry
  · rw [parse_mode_oob s d hc hm] at he
    simp at he
  · rcases hr : entry.2.2[d.getD 6 0 &&& 0x0F]? with _ | rng
    · rw [parse_range_oob s d entry hc hm hr] at he
      simp at he
    · by_cases hofl : (d.getD 6 0 >>> 7) &&& 0x01 = 0
      · rw [parse_normal s d entry rng hc hm hr hofl,
            parse_normal t d entry rng hc hm hr hofl]
      · rw [parse_overflow s d entry rng hc hm hr hofl,
            parse_overflow t d entry rng hc hm hr hofl]

/-- `parse_121GW_data` neither reads nor writes `buffer` and
`is_waiting_for_start`; it commutes with updating them. -/
lemma parse_buffer_free (s : MeterState) (b : List Nat) (w : Bool) (d : List Nat) :
    parse_121GW_data { s with buffer := b, is_waiting_for_start := w } d
      = ({ (parse_121GW_data s d).1 with buffer := b, is_waiting_for_start := w },
         (parse_121GW_data s d).2) := by
  by_cases hc : xor_checksum d = d.getD 18 0
  · rcases hm : MODE_RANGE_LIST[d.getD 5 0 &&& 0x1F]? with _ | entry
    · rw [parse_mode_oob _ d hc hm, parse_mode_oob s d hc hm]
    · rcases hr : entry.2.2[d.getD 6 0 &&& 0x0F]? with _ | rng
      · rw [parse_range_oob _ d entry hc hm hr, parse_range_oob s d entry hc hm hr]
      · by_cases hofl : (d.getD 6 0 >>> 7) &&& 0x01 = 0
        · rw [parse_normal _ d entry rng hc hm hr hofl,
              parse_normal s d entry rng hc hm hr hofl]
        · rw [parse_overflow _ d entry rng hc hm hr hofl,
              parse_overflow s d entry rng hc hm hr hofl]
  · rw [parse_checksum_fail _ d hc, parse_checksum_fail s d hc]

/-- `notification_handler` on a concatenation: process the first part; if
it raised, the rest of the chunk is never seen, otherwise continue. -/
lemma notification_handler_append (a b : List Nat) : ∀ s : MeterState,
    notification_handler s (a ++ b)
      = match notification_handler s a with
        | (s1, true) => (s1, true)
        | (s1, false) => notification_handler s1 b := by
  induction a with
  | nil => intro s; rfl
  | cons x xs ih =>
    intro s
    show notification_handler s (x :: (xs ++ b)) = _
    rcases h : notificationStep s x with ⟨s1, e⟩
    cases e
    · simp only [notification_handler, h, ih s1]
    · simp only [notification_handler, h]

/-- While accumulating (`is_waiting_for_start = false`), feeding the
bytes that complete the 19-byte buffer runs the decoder on
`buffer ++ c` and then resets the reassembler (unless the decoder
raised, in which case buffer and flag are left as they are). -/
lemma notification_handler_accumulate : ∀ (c : List Nat) (s : MeterState),
    s.is_waiting_for_start = false →
    s.buffer.length + c.length = 19 → 0 < c.length →
    notification_handler s c
      = match parse_121GW_data { s with buffer := s.buffer ++ c } (s.buffer ++ c) with
        | (s2, true) => (s2, true)
        | (s2, false) => ({ s2 with buffer := [], is_waiting_for_start := true }, false)
  | [], s, _, _, hpos => absurd hpos (by simp)
  | x :: c, s, hw, hlen, _ => by
    show (match notificationStep s x with
          | (s1, true) => (s1, true)
          | (s1, false) => notification_handler s1 c) = _
    by_cases hc : c = []
    · subst hc
      have h18 : s.buffer.length = 18 := by simpa using hlen
      have key : notificationStep s x
          = match parse_121GW_data { s with buffer := s.buffer ++ [x] } (s.buffer ++ [x]) with
            | (s2, true) => (s2, true)
            | (s2, false) => ({ s2 with buffer := [], is_waiting_for_start := true }, false) := by
        simp only [notificationStep]
        rw [if_neg (by rw [hw]; simp)]
        rw [if_pos (by simp [h18]), if_pos (by simp [h18])]
      rw [key]
      rcases hp : parse_121GW_data { s with buffer := s.buffer ++ [x] } (s.buffer ++ [x])
        with ⟨s2, e⟩
      cases e <;> simp only [notification_handler]
    · have hcpos : 0 < c.length := List.length_pos.mpr hc
      have hlt : s.buffer.length + 1 ≤ 18 := by
        simp only [List.length_cons] at hlen
        omega
      have hstep : notificationStep s x = ({ s with buffer := s.buffer ++ [x] }, false) := by
        simp only [notificationStep]
        rw [if_neg (by rw [hw]; simp)]
        rw [if_neg (by simp; omega)]
      rw [hstep]
      show notification_handler { s with buffer := s.buffer ++ [x] } c = _
      rw [notification_handler_accumulate c { s with buffer := s.buffer ++ [x] } hw
        (by simp only [List.length_append, List.length_cons, List.length_nil]
            simp only [List.length_cons] at hlen
            omega) hcpos]
      simp only [List.append_assoc, List.singleton_append]

/-- The busy-wait loop: started with the flag clear, it returns `0.0`
exactly when the window expires with the flag still clear, and the
current `main_value_float` when it observes the flag set. -/
lemma readingLoop_spec : ∀ (arrivals : List (List Nat)) (s : MeterState),
    s.is_new_value = false →
    ((readingLoop s arrivals).2.is_new_value = false → (readingLoop s arrivals).1 = 0)
    ∧ ((readingLoop s arrivals).2.is_new_value = true →
        (readingLoop s arrivals).1 = (readingLoop s arrivals).2.main_value_float)
  | [], s, hf => by
    constructor
    · intro _; rfl
    · intro h
      rw [show (readingLoop s []).2 = s from rfl] at h
      rw [hf] at h
      exact absurd h (by simp)
  | c :: rest, s, hf => by
    simp only [readingLoop]
    by_cases h1 : ((notification_handler s c).1).is_new_value = true
    · rw [if_pos h1]
      refine ⟨fun h => ?_, fun _ => rfl⟩
      exact absurd (by simpa using h) (by simp [h1])
    · have h1f : ((notification_handler s c).1).is_new_value = false := by
        simpa using h1
      rw [if_neg h1]
      exact readingLoop_spec rest (notification_handler s c).1 h1f

/-! ### Concrete frames used by witnesses and counterexamples

Each is a full 19-byte frame: byte 0 is the `0xF2` start marker, byte 18
the XOR checksum of bytes 0–17. -/

/-- Mode 1 ("Voltage DC (V)"), range index 3 (exponent `-1`), sign 0,
overflow 0, mantissa 12345 (`0x3039`).  Decodes to `12345 * 10 ^ (-1) =
1234.5`. -/
def frame_mode1_range3 : List Nat :=
  [0xF2, 0, 0, 0, 0, 0x01, 0x03, 0x30, 0x39, 0, 0, 0, 0, 0, 0, 0, 0, 0, 0xF9]

/-- Mode 1, range index 0 (exponent `-4`), sign 0, overflow 0, mantissa
12345.  Decodes to `1.2345`. -/
def frame_mode1_range0 : List Nat :=
  [0xF2, 0, 0, 0, 0, 0x01, 0x00, 0x30, 0x39, 0, 0, 0, 0, 0, 0, 0, 0, 0, 0xFA]

/-- Mode 1, range index 1 (exponent `-3`), sign 0, overflow 0, mantissa
54321 (`0xD431`).  Decodes to `54.321`. -/
def frame_mode1_range1 : List Nat :=
  [0xF2, 0, 0, 0, 0, 0x01, 0x01, 0xD4, 0x31, 0, 0, 0, 0, 0, 0, 0, 0, 0, 0x17]

/-- Checksum-valid frame whose 5-bit mode index is 31, past the 25-entry
table. -/
def frame_mode31 : List Nat :=
  [0xF2, 0, 0, 0, 0, 0x1F, 0, 0, 0, 0, 0, 0, 0, 0, 0, 0, 0, 0, 0xED]

/-- Checksum-valid frame, mode 0 (single exponent), range index 1 — the
range index is out of bounds for the mode's exponent list. -/
def frame_range_oob : List Nat :=
  [0xF2, 0, 0, 0, 0, 0x00, 0x01, 0, 0, 0, 0, 0, 0, 0, 0, 0, 0, 0, 0xF3]

/-- Overflow frame: mode 1, byte 6 = `0xC3` (bit 7 = OFL, bit 6 = sign,
range index 3); bytes 7/8 hold garbage `0xAB 0xCD`.  Decodes to
`-9.9e37`. -/
def frame_ofl_neg : List Nat :=
  [0xF2, 0, 0, 0, 0, 0x01, 0xC3, 0xAB, 0xCD, 0, 0, 0, 0, 0, 0, 0, 0, 0, 0x56]

/-- Checksum-valid frame with the overflow bit set (byte 6 = `0x80`) but
mode index 25, past the table. -/
def frame_ofl_mode25 : List Nat :=
  [0xF2, 0, 0, 0, 0, 0x19, 0x80, 0, 0, 0, 0, 0, 0, 0, 0, 0, 0, 0, 0x6B]

/-- Checksum-valid frame, mode 1, byte 5 bits 1–0 = `01` but bits 7–6 =
`00`; mantissa bytes 7/8 zero.  Decodes to `0`. -/
def frame_mode1_low : List Nat :=
  [0xF2, 0, 0, 0, 0, 0x01, 0x00, 0, 0, 0, 0, 0, 0, 0, 0, 0, 0, 0, 0xF3]

/-- Valid frame whose second byte — payload, position 1 — is again the
start marker value `0xF2`: mode 0, range 0 (exponent `-1`), mantissa 256.
Decodes to `25.6`. -/
def frame_marker_in_payload : List Nat :=
  [0xF2, 0xF2, 0, 0, 0, 0x00, 0x00, 0x01, 0x00, 0, 0, 0, 0, 0, 0, 0, 0, 0, 0x01]

/-! ### Helper lemmas for index conversion and mantissa arithmetic -/

/-- An in-bounds optional lookup agrees with `getD`. -/
lemma getElem?_eq_some_getD {α : Type} (l : List α) (i : Nat) (a : α)
    (h : i < l.length) : l[i]? = some (l.getD i a) := by
  rw [List.getElem?_eq_getElem h, List.getD_eq_getElem?_getD,
    List.getElem?_eq_getElem h, Option.getD_some]

/-- Reading an in-bounds position of a byte list yields a byte. -/
lemma getD_lt_256 (d : List Nat) (i : Nat) (hi : i < d.length)
    (h255 : ∀ b ∈ d, b < 256) : d.getD i 0 < 256 := by
  have hmem : d.getD i 0 ∈ d := by
    rw [List.getD_eq_getElem?_getD, List.getElem?_eq_getElem hi, Option.getD_some]
    exact List.getElem_mem hi
  exact h255 _ hmem

/-- The reconstructed mantissa fits in 18 bits. -/
lemma mainValue_le (a b c : Nat) (hb : b < 256) (hc : c < 256) :
    (((a <<< 10) &&& 0x030000) ||| (b <<< 8)) ||| c ≤ 262143 := by
  have h218 : (2 : ℕ) ^ 18 = 262144 := by norm_num
  have h1 : (a <<< 10) &&& 0x030000 < 2 ^ 18 :=
    lt_of_le_of_lt Nat.and_le_right (by norm_num)
  have h2 : b <<< 8 < 2 ^ 18 := by
    rw [Nat.shiftLeft_eq, show (2 : ℕ) ^ 8 = 256 from by norm_num, h218]
    omega
  have h3 : c < 2 ^ 18 := lt_trans hc (by norm_num)
  have h := Nat.or_lt_two_pow (Nat.or_lt_two_pow h1 h2) h3
  rw [h218] at h
  omega

/-- The top two bits of the reconstructed mantissa are byte 5 bits 7-6
(`(a <<< 10) &&& 0x030000` keeps exactly those two bits, at positions
17-16). -/
lemma mainValue_top_bits (a b c : Nat) (hb : b < 256) (hc : c < 256) :
    ((((a <<< 10) &&& 0x030000) ||| (b <<< 8)) ||| c) >>> 16
      = (a >>> 6) &&& 0x03 := by
  have hbhi : ∀ i, (b <<< 8).testBit (16 + i) = false := by
    intro i
    apply Nat.testBit_lt_two_pow
    have hb16 : b <<< 8 < 2 ^ 16 := by
      rw [Nat.shiftLeft_eq, show (2 : ℕ) ^ 8 = 256 from by norm_num,
        show (2 : ℕ) ^ 16 = 65536 from by norm_num]
      omega
    exact lt_of_lt_of_le hb16 (Nat.pow_le_pow_right (by norm_num) (Nat.le_add_right 16 i))
  have hchi : ∀ i, c.testBit (16 + i) = false := by
    intro i
    apply Nat.testBit_lt_two_pow
    exact lt_of_lt_of_le hc (le_trans (by norm_num : (256 : ℕ) ≤ 2 ^ 16)
      (Nat.pow_le_pow_right (by norm_num) (Nat.le_add_right 16 i)))
  apply Nat.eq_of_testBit_eq
  intro i
  rw [Nat.testBit_shiftRight]
  rw [show (0x030000 : ℕ) = 3 <<< 16 from rfl]
  simp only [Nat.testBit_or, Nat.testBit_and, Nat.testBit_shiftLeft,
    Nat.testBit_shiftRight, hbhi, hchi, Bool.or_false]
  have d1 : decide (16 + i ≥ 10) = true := decide_eq_true (by omega)
  have d2 : decide (16 + i ≥ 16) = true := decide_eq_true (by omega)
  have e1 : 16 + i - 10 = 6 + i := by omega
  have e2 : 16 + i - 16 = i := by omega
  rw [d1, d2, e1, e2, Bool.true_and, Bool.true_and]

/-- Value formula for a successful positive-sign normal decode, stated
with the mantissa already evaluated (convenient at concrete frames). -/
lemma parse_value_pos (s : MeterState) (d : List Nat)
    (entry : String × String × List Int) (rng : Int)
    (hc : xor_checksum d = d.getD 18 0)
    (hm : MODE_RANGE_LIST[d.getD 5 0 &&& 0x1F]? = some entry)
    (hr : entry.2.2[d.getD 6 0 &&& 0x0F]? = some rng)
    (hofl : (d.getD 6 0 >>> 7) &&& 0x01 = 0)
    (hsign : (d.getD 6 0 >>> 6) &&& 0x01 = 0)
    (mv : ℕ)
    (hmv : (((d.getD 5 0 <<< 10) &&& 0x030000) ||| (d.getD 7 0 <<< 8)) ||| d.getD 8 0 = mv) :
    (parse_121GW_data s d).1.main_value_float = (mv : ℚ) * 1 * (10 : ℚ) ^ rng := by
  rw [parse_normal s d entry rng hc hm hr hofl, hmv, if_neg (not_not_intro hsign)]

/-! ### Claim theorems -/

/-- C1 (amended).  The checksum is a necessary gate but not sufficient
for acceptance: when the XOR of bytes 0–17 differs from byte 18 the
frame is discarded with the state exactly unchanged (no field update, no
flag change, no error); when the checksum matches AND the mode/range
indices are in bounds, the decode completes without error and sets the
new-value flag. -/
theorem checksum_gate (s : MeterState) (d : List Nat) (_h19 : d.length = 19) :
    (xor_checksum d ≠ d.getD 18 0 → parse_121GW_data s d = (s, false))
    ∧ (xor_checksum d = d.getD 18 0 →
        d.getD 5 0 &&& 0x1F < MODE_RANGE_LIST.length →
        d.getD 6 0 &&& 0x0F
            < (MODE_RANGE_LIST.getD (d.getD 5 0 &&& 0x1F) ("", "", [])).2.2.length →
        (parse_121GW_data s d).2 = false
        ∧ (parse_121GW_data s d).1.is_new_value = true) := by
  constructor
  · intro hc
    exact parse_checksum_fail s d hc
  · intro hc hm hr
    have hm' : MODE_RANGE_LIST[d.getD 5 0 &&& 0x1F]?
        = some (MODE_RANGE_LIST.getD (d.getD 5 0 &&& 0x1F) ("", "", [])) :=
      getElem?_eq_some_getD _ _ _ hm
    have hr' : (MODE_RANGE_LIST.getD (d.getD 5 0 &&& 0x1F) ("", "", [])).2.2[d.getD 6 0 &&& 0x0F]?
        = some ((MODE_RANGE_LIST.getD (d.getD 5 0 &&& 0x1F) ("", "", [])).2.2.getD
            (d.getD 6 0 &&& 0x0F) 0) :=
      getElem?_eq_some_getD _ _ _ hr
    by_cases hofl : (d.getD 6 0 >>> 7) &&& 0x01 = 0
    · rw [parse_normal s d _ _ hc hm' hr' hofl]
      exact ⟨rfl, rfl⟩
    · rw [parse_overflow s d _ _ hc hm' hr' hofl]
      exact ⟨rfl, rfl⟩

/-- Witness for C1: a checksum-invalid frame is silently discarded; the
valid frame `frame_mode1_range3` is accepted with the flag set. -/
theorem checksum_gate_witness :
    parse_121GW_data initState
        [0xF2, 0, 0, 0, 0, 0, 0, 0, 0, 0, 0, 0, 0, 0, 0, 0, 0, 0, 0]
      = (initState, false)
    ∧ (parse_121GW_data initState frame_mode1_range3).2 = false
    ∧ (parse_121GW_data initState frame_mode1_range3).1.is_new_value = true :=
  ⟨(checksum_gate initState _ (by decide)).1 (by decide),
   (checksum_gate initState frame_mode1_range3 (by decide)).2
     (by decide) (by decide) (by decide)⟩

/-- Counterexample for C1 as stated: `frame_mode31` has a valid checksum
(XOR of bytes 0–17 equals byte 18) yet the decode does NOT accept it —
it raises an out-of-bounds error, leaves every Reading field untouched
and the new-value flag clear, so "accepts iff checksum matches" fails in
the left-to-right direction. -/
theorem checksum_accept_iff_cex :
    xor_checksum frame_mode31 = frame_mode31.getD 18 0
    ∧ parse_121GW_data initState frame_mode31 = (initState, true)
    ∧ (parse_121GW_data initState frame_mode31).1.is_new_value = false := by
  decide

/-- C5 (amended).  For a checksum-valid frame with the overflow bit
(byte 6 bit 7) set and in-bounds mode/range indices, the decode
commits `main_value_float = 9.9e37 * sign`, where sign is byte 6 bit 6;
the value does not depend on bytes 7 and 8 nor on byte 5's mantissa
bits (the mantissa reconstruction is skipped). -/
theorem overflow_encoding (s : MeterState) (d : List Nat) (_h19 : d.length = 19)
    (hc : xor_checksum d = d.getD 18 0)
    (hm : d.getD 5 0 &&& 0x1F < MODE_RANGE_LIST.length)
    (hr : d.getD 6 0 &&& 0x0F
        < (MODE_RANGE_LIST.getD (d.getD 5 0 &&& 0x1F) ("", "", [])).2.2.length)
    (hofl : (d.getD 6 0 >>> 7) &&& 0x01 = 1) :
    (parse_121GW_data s d).2 = false
    ∧ (parse_121GW_data s d).1.main_value_float
        = 99 * 10 ^ 36 * (if (d.getD 6 0 >>> 6) &&& 0x01 ≠ 0 then (-1 : ℚ) else 1)
    ∧ (parse_121GW_data s d).1.is_new_value = true := by
  have hm' : MODE_RANGE_LIST[d.getD 5 0 &&& 0x1F]?
      = some (MODE_RANGE_LIST.getD (d.getD 5 0 &&& 0x1F) ("", "", [])) :=
    getElem?_eq_some_getD _ _ _ hm
  have hr' : (MODE_RANGE_LIST.getD (d.getD 5 0 &&& 0x1F) ("", "", [])).2.2[d.getD 6 0 &&& 0x0F]?
      = some ((MODE_RANGE_LIST.getD (d.getD 5 0 &&& 0x1F) ("", "", [])).2.2.getD
          (d.getD 6 0 &&& 0x0F) 0) :=
    getElem?_eq_some_getD _ _ _ hr
  rw [parse_overflow s d _ _ hc hm' hr' (by rw [hofl]; exact one_ne_zero)]
  exact ⟨rfl, rfl, rfl⟩

/-- Witness for C5: the overflow frame with sign bit set decodes to
`-9.9e37` even though bytes 7/8 hold garbage. -/
theorem overflow_encoding_witness :
    (parse_121GW_data initState frame_ofl_neg).2 = false
    ∧ (parse_121GW_data initState frame_ofl_neg).1.main_value_float
        = 99 * 10 ^ 36
            * (if (frame_ofl_neg.getD 6 0 >>> 6) &&& 0x01 ≠ 0 then (-1 : ℚ) else 1) := by
  have h := overflow_encoding initState frame_ofl_neg (by decide) (by decide)
    (by decide) (by decide) (by decide)
  exact ⟨h.1, h.2.1⟩

/-- Counterexample for C5 as stated: `frame_ofl_mode25` is checksum-valid
with the overflow bit set, yet because byte 5 holds mode index 25 the
decode raises instead of producing ±9.9e37 — the claim's "regardless of
the contents of byte 5" fails. -/
theorem overflow_mode_oob_cex :
    xor_checksum frame_ofl_mode25 = frame_ofl_mode25.getD 18 0
    ∧ (frame_ofl_mode25.getD 6 0 >>> 7) &&& 0x01 = 1
    ∧ parse_121GW_data initState frame_ofl_mode25 = (initState, true)
    ∧ (parse_121GW_data initState frame_ofl_mode25).1.main_value_float
        ≠ 99 * 10 ^ 36
    ∧ (parse_121GW_data initState frame_ofl_mode25).1.main_value_float
        ≠ -(99 * 10 ^ 36) := by
  have hp : parse_121GW_data initState frame_ofl_mode25 = (initState, true) :=
    parse_mode_oob initState _ (by decide) (by decide)
  refine ⟨by decide, by decide, hp, ?_, ?_⟩
  · rw [hp]
    show (0 : ℚ) ≠ 99 * 10 ^ 36
    norm_num
  · rw [hp]
    show (0 : ℚ) ≠ -(99 * 10 ^ 36)
    norm_num

/-- C7.  On a checksum-valid 19-byte frame: a mode index above 24 raises
an out-of-bounds failure with the state unchanged; an in-bounds mode
with a range index past the mode's exponent list raises with the
new-value flag unchanged; with both indices in bounds no failure
occurs. -/
theorem index_bounds_failure (s : MeterState) (d : List Nat) (_h19 : d.length = 19)
    (hc : xor_checksum d = d.getD 18 0) :
    (24 < d.getD 5 0 &&& 0x1F → parse_121GW_data s d = (s, true))
    ∧ (d.getD 5 0 &&& 0x1F ≤ 24 →
        (MODE_RANGE_LIST.getD (d.getD 5 0 &&& 0x1F) ("", "", [])).2.2.length
            ≤ d.getD 6 0 &&& 0x0F →
        (parse_121GW_data s d).2 = true
        ∧ (parse_121GW_data s d).1.is_new_value = s.is_new_value)
    ∧ (d.getD 5 0 &&& 0x1F ≤ 24 →
        d.getD 6 0 &&& 0x0F
            < (MODE_RANGE_LIST.getD (d.getD 5 0 &&& 0x1F) ("", "", [])).2.2.length →
        (parse_121GW_data s d).2 = false) := by
  have hlen : MODE_RANGE_LIST.length = 25 := by decide
  refine ⟨?_, ?_, ?_⟩
  · intro h
    exact parse_mode_oob s d hc (List.getElem?_eq_none (by omega))
  · intro h1 h2
    have hm' : MODE_RANGE_LIST[d.getD 5 0 &&& 0x1F]?
        = some (MODE_RANGE_LIST.getD (d.getD 5 0 &&& 0x1F) ("", "", [])) :=
      getElem?_eq_some_getD _ _ _ (by omega)
    have hr' : (MODE_RANGE_LIST.getD (d.getD 5 0 &&& 0x1F) ("", "", [])).2.2[d.getD 6 0 &&& 0x0F]?
        = (none : Option Int) := List.getElem?_eq_none h2
    rw [parse_range_oob s d _ hc hm' hr']
    exact ⟨rfl, rfl⟩
  · intro h1 h2
    have hm' : MODE_RANGE_LIST[d.getD 5 0 &&& 0x1F]?
        = some (MODE_RANGE_LIST.getD (d.getD 5 0 &&& 0x1F) ("", "", [])) :=
      getElem?_eq_some_getD _ _ _ (by omega)
    have hr' : (MODE_RANGE_LIST.getD (d.getD 5 0 &&& 0x1F) ("", "", [])).2.2[d.getD 6 0 &&& 0x0F]?
        = some ((MODE_RANGE_LIST.getD (d.getD 5 0 &&& 0x1F) ("", "", [])).2.2.getD
            (d.getD 6 0 &&& 0x0F) 0) :=
      getElem?_eq_some_getD _ _ _ h2
    by_cases hofl : (d.getD 6 0 >>> 7) &&& 0x01 = 0
    · rw [parse_normal s d _ _ hc hm' hr' hofl]
    · rw [parse_overflow s d _ _ hc hm' hr' hofl]

/-- Witness for C7: mode 31 raises with state unchanged; mode 0 with
range index 1 raises; the fully valid `frame_mode1_range3` decodes
without failure. -/
theorem index_bounds_failure_witness :
    parse_121GW_data initState frame_mode31 = (initState, true)
    ∧ (parse_121GW_data initState frame_range_oob).2 = true
    ∧ (parse_121GW_data initState frame_mode1_range3).2 = false :=
  ⟨(index_bounds_failure initState frame_mode31 (by decide) (by decide)).1 (by decide),
   ((index_bounds_failure initState frame_range_oob (by decide) (by decide)).2.1
     (by decide) (by decide)).1,
   (index_bounds_failure initState frame_mode1_range3 (by decide) (by decide)).2.2
     (by decide) (by decide)⟩

/-- C10.  When the mode index is valid but the range index is past the
mode's exponent list, the failure is not atomic: `main_mode_short` and
`main_mode_long` are already overwritten when the error is raised, while
`main_range`, `main_value_float` and the new-value flag keep their
previous values. -/
theorem range_error_partial_update (s : MeterState) (d : List Nat)
    (_h19 : d.length = 19)
    (hc : xor_checksum d = d.getD 18 0)
    (hm : d.getD 5 0 &&& 0x1F < MODE_RANGE_LIST.length)
    (hr : (MODE_RANGE_LIST.getD (d.getD 5 0 &&& 0x1F) ("", "", [])).2.2.length
        ≤ d.getD 6 0 &&& 0x0F) :
    parse_121GW_data s d =
      ({ s with
          main_mode_short := (MODE_RANGE_LIST.getD (d.getD 5 0 &&& 0x1F) ("", "", [])).1
          main_mode_long := (MODE_RANGE_LIST.getD (d.getD 5 0 &&& 0x1F) ("", "", [])).2.1 },
        true) :=
  parse_range_oob s d _ hc (getElem?_eq_some_getD _ _ _ hm) (List.getElem?_eq_none hr)

/-- Witness for C10: on `frame_range_oob` only the two mode labels are
updated; range, value, flag, buffer and ghost log are untouched. -/
theorem range_error_partial_update_witness :
    parse_121GW_data initState frame_range_oob
      = ({ initState with
            main_mode_short := "V", main_mode_long := "Voltage Low Z (V)" }, true) := by
  rw [range_error_partial_update initState frame_range_oob (by decide) (by decide)
    (by decide) (by decide)]
  decide

/-- C9 (amended).  The literal frame with mode index 1, range index 3
(exponent `-1`), sign 0, overflow 0 and mantissa 12345 decodes to
`1234.5` (exactly, hence within `1e-9`) — not to `1.2345`, which would
need range index 0 (exponent `-4`). -/
theorem mantissa_example_amended :
    (parse_121GW_data initState frame_mode1_range3).1.main_value_float = 2469 / 2
    ∧ |(parse_121GW_data initState frame_mode1_range3).1.main_value_float - 2469 / 2|
        ≤ 1 / 10 ^ 9 := by
  have h : (parse_121GW_data initState frame_mode1_range3).1.main_value_float
      = 2469 / 2 := by
    rw [parse_value_pos initState frame_mode1_range3 ("V", "Voltage DC (V)", [-4, -3, -2, -1])
      (-1) (by decide) (by decide) (by decide) (by decide) (by decide) 12345 (by decide)]
    norm_num
  exact ⟨h, by rw [h]; norm_num⟩

/-- Counterexample for C9 as stated: the frame prescribed by the claim
(mode 1, range 3, sign 0, overflow 0, mantissa 12345) decodes to
`1234.5`, which is not within `1e-9` of `1.2345`. -/
theorem mantissa_example_cex :
    xor_checksum frame_mode1_range3 = frame_mode1_range3.getD 18 0
    ∧ frame_mode1_range3.getD 5 0 &&& 0x1F = 1
    ∧ frame_mode1_range3.getD 6 0 &&& 0x0F = 3
    ∧ (frame_mode1_range3.getD 6 0 >>> 6) &&& 0x01 = 0
    ∧ (frame_mode1_range3.getD 6 0 >>> 7) &&& 0x01 = 0
    ∧ (((frame_mode1_range3.getD 5 0 <<< 10) &&& 0x030000)
        ||| (frame_mode1_range3.getD 7 0 <<< 8)) ||| frame_mode1_range3.getD 8 0 = 12345
    ∧ (parse_121GW_data initState frame_mode1_range3).1.main_value_float = 2469 / 2
    ∧ ¬ |(2469 / 2 : ℚ) - 12345 / 10000| ≤ 1 / 10 ^ 9 := by
  refine ⟨by decide, by decide, by decide, by decide, by decide, by decide, ?_, ?_⟩
  · rw [parse_value_pos initState frame_mode1_range3 ("V", "Voltage DC (V)", [-4, -3, -2, -1])
      (-1) (by decide) (by decide) (by decide) (by decide) (by decide) 12345 (by decide)]
    norm_num
  · rw [abs_of_nonneg (by norm_num)]
    norm_num

/-- C8.  From the scanning state, any 19-byte chunk that starts with the
`0xF2` marker — regardless of the payload content, in particular when
payload bytes 1–17 themselves contain `0xF2` — is accumulated whole and
handed to the decoder: a payload `0xF2` is appended as ordinary data and
never treated as a new start marker.  On normal decode the reassembler
resets; when the decoder raises, buffer and flag are left mid-frame. -/
theorem marker_in_payload (s : MeterState) (d : List Nat)
    (hw : s.is_waiting_for_start = true) (hb : s.buffer = [])
    (h19 : d.length = 19) (h0 : d.getD 0 0 = 0xF2) :
    notification_handler s d
      = match parse_121GW_data s d with
        | (s2, true) => ({ s2 with buffer := d, is_waiting_for_start := false }, true)
        | (s2, false) => ({ s2 with buffer := [], is_waiting_for_start := true }, false) := by
  rcases d with _ | ⟨x, rest⟩
  · simp at h19
  · have hx : x = 0xF2 := h0
    subst hx
    have hrest : rest.length = 18 := by simpa using h19
    show (match notificationStep s 0xF2 with
          | (s1, true) => (s1, true)
          | (s1, false) => notification_handler s1 rest) = _
    have hstep : notificationStep s 0xF2
        = ({ s with is_waiting_for_start := false, buffer := s.buffer ++ [0xF2] }, false) := by
      simp only [notificationStep, hw, if_true]
    rw [hstep]
    show notification_handler
        { s with is_waiting_for_start := false, buffer := s.buffer ++ [0xF2] } rest = _
    rw [notification_handler_accumulate rest _ rfl
      (by simp [hb, hrest]) (by omega)]
    have hbuf : ({ s with is_waiting_for_start := false, buffer := s.buffer ++ [0xF2] }
        : MeterState).buffer ++ rest = 0xF2 :: rest := by
      simp [hb]
    rw [hbuf]
    have hcomm : parse_121GW_data
        { { s with is_waiting_for_start := false, buffer := s.buffer ++ [0xF2] }
          with buffer := 0xF2 :: rest } (0xF2 :: rest)
        = parse_121GW_data
            { s with buffer := 0xF2 :: rest, is_waiting_for_start := false }
            (0xF2 :: rest) := rfl
    rw [hcomm, parse_buffer_free s (0xF2 :: rest) false (0xF2 :: rest)]
    rcases hp : parse_121GW_data s (0xF2 :: rest) with ⟨s2, e⟩
    cases e <;> rfl

/-- Witness for C8: the valid frame whose payload byte 1 is `0xF2`
reassembles and decodes exactly as the decoder alone would, producing
`256 * 10 ^ (-1) = 25.6`. -/
theorem marker_in_payload_witness :
    frame_marker_in_payload.getD 1 0 = 0xF2
    ∧ notification_handler initState frame_marker_in_payload
        = ({ (parse_121GW_data initState frame_marker_in_payload).1 with
              buffer := [], is_waiting_for_start := true }, false)
    ∧ (notification_handler initState frame_marker_in_payload).1.main_value_float
        = 128 / 5 := by
  have h := marker_in_payload initState frame_marker_in_payload rfl rfl
    (by decide) (by decide)
  have hsnd : (parse_121GW_data initState frame_marker_in_payload).2 = false := by decide
  rcases hp : parse_121GW_data initState frame_marker_in_payload with ⟨s2, e⟩
  rw [hp] at hsnd
  subst hsnd
  rw [hp] at h
  refine ⟨by decide, h, ?_⟩
  rw [h]
  show s2.main_value_float = 128 / 5
  have hv : (parse_121GW_data initState frame_marker_in_payload).1.main_value_float
      = ((256 : ℕ) : ℚ) * 1 * (10 : ℚ) ^ (-1 : ℤ) :=
    parse_value_pos initState frame_marker_in_payload ("V", "Voltage Low Z (V)", [-1]) (-1)
      (by decide) (by decide) (by decide) (by decide) (by decide) 256 (by decide)
  rw [hp] at hv
  rw [hv]
  norm_num

/-- C3 (amended).  As long as processing the concatenated byte sequence
raises no decode error, delivering it in one `notification_handler` call
or split into arbitrarily many consecutive chunks leaves the reassembler
in the same state — including the ghost log, i.e. the same sequence of
decoded readings.  (When a decode error fires mid-chunk the rest of that
chunk is lost, so fragmentations can then diverge; see the
counterexample.) -/
theorem fragmentation_invariance (s : MeterState) (chunks : List (List Nat))
    (h : (notification_handler s chunks.flatten).2 = false) :
    deliverChunks s chunks = (notification_handler s chunks.flatten).1 := by
  induction chunks generalizing s with
  | nil => rfl
  | cons c cs ih =>
    rw [List.flatten_cons] at h ⊢
    rw [notification_handler_append c cs.flatten s] at h ⊢
    rcases hx : notification_handler s c with ⟨s1, e⟩
    rw [hx] at h
    cases e
    · have hd : deliverChunks s (c :: cs) = deliverChunks s1 cs := by
        simp [deliverChunks, hx]
      rw [hd]
      exact ih s1 h
    · exact Bool.noConfusion h

/-- Witness for C3: a valid frame split 7/12 across two deliveries ends
in the same state as a single delivery of the whole frame. -/
theorem fragmentation_invariance_witness :
    deliverChunks initState
        [[0xF2, 0, 0, 0, 0, 0x01, 0x03], [0x30, 0x39, 0, 0, 0, 0, 0, 0, 0, 0, 0, 0xF9]]
      = (notification_handler initState
          ([[0xF2, 0, 0, 0, 0, 0x01, 0x03],
            [0x30, 0x39, 0, 0, 0, 0, 0, 0, 0, 0, 0, 0xF9]] : List (List Nat)).flatten).1 :=
  fragmentation_invariance initState _ (by decide)

/-- Counterexample for C3 as stated: a checksum-valid frame with an
out-of-range mode index makes the decoder raise; in a single call the
byte following it is never processed, while with the frame and that byte
delivered as two chunks the second call appends it — the two
fragmentations end in different reassembler states. -/
theorem fragmentation_cex :
    (notification_handler initState (frame_mode31 ++ [0])).2 = true
    ∧ deliverChunks initState [frame_mode31, [0]]
        ≠ (notification_handler initState (frame_mode31 ++ [0])).1 := by
  decide

/-- C4 (amended).  After two frames are decoded in succession with no
read in between, the mailbox holds the second frame's reading — the
committed `main_value_float` is a function of the second frame alone, so
the first frame's reading is overwritten and can never be returned.  A
subsequent `waitForReading` however does not return the pending second
value either: it clears the new-value flag on entry, and with no frames
arriving during the wait it times out with the sentinel `0.0`. -/
theorem mailbox_latest_wins (s : MeterState) (d1 d2 : List Nat)
    (hc2 : xor_checksum d2 = d2.getD 18 0)
    (hacc : (parse_121GW_data (parse_121GW_data s d1).1 d2).2 = false) :
    (parse_121GW_data (parse_121GW_data s d1).1 d2).1.main_value_float
      = (parse_121GW_data initState d2).1.main_value_float
    ∧ reading (parse_121GW_data (parse_121GW_data s d1).1 d2).1 []
      = (0, { (parse_121GW_data (parse_121GW_data s d1).1 d2).1 with
              is_new_value := false }) :=
  ⟨parse_value_state_free _ initState d2 hc2 hacc, rfl⟩

/-- Witness for C4 (amended), at two concrete frames. -/
theorem mailbox_latest_wins_witness :
    (parse_121GW_data (parse_121GW_data initState frame_mode1_range0).1
        frame_mode1_range1).1.main_value_float
      = (parse_121GW_data initState frame_mode1_range1).1.main_value_float
    ∧ reading (parse_121GW_data (parse_121GW_data initState frame_mode1_range0).1
        frame_mode1_range1).1 []
      = (0, { (parse_121GW_data (parse_121GW_data initState frame_mode1_range0).1
              frame_mode1_range1).1 with is_new_value := false }) :=
  mailbox_latest_wins initState frame_mode1_range0 frame_mode1_range1
    (by decide) (by decide)

/-- Counterexample for C4 as stated: frames decoding to `1.2345` then
`54.321` are decoded back to back; the subsequent `waitForReading` (no
further arrivals) returns the sentinel `0`, not the second frame's
reading `54.321`. -/
theorem mailbox_latest_wins_cex :
    (parse_121GW_data initState frame_mode1_range0).1.main_value_float = 2469 / 2000
    ∧ (parse_121GW_data (parse_121GW_data initState frame_mode1_range0).1
        frame_mode1_range1).1.main_value_float = 54321 / 1000
    ∧ (reading (parse_121GW_data (parse_121GW_data initState frame_mode1_range0).1
        frame_mode1_range1).1 []).1 = 0
    ∧ (0 : ℚ) ≠ 54321 / 1000 := by
  refine ⟨?_, ?_, rfl, by norm_num⟩
  · rw [parse_value_pos initState frame_mode1_range0 ("V", "Voltage DC (V)", [-4, -3, -2, -1])
      (-4) (by decide) (by decide) (by decide) (by decide) (by decide) 12345 (by decide)]
    norm_num
  · rw [parse_value_pos _ frame_mode1_range1 ("V", "Voltage DC (V)", [-4, -3, -2, -1])
      (-3) (by decide) (by decide) (by decide) (by decide) (by decide) 54321 (by decide)]
    norm_num

/-- C6.  The `reading` property clears the new-value flag on entry (its
result is independent of any pending unread value); when no decode
happens before the 2-second window empties the delivered-chunk list it
returns the sentinel `0.0`, and when a decode sets the flag during the
wait it returns the then-current `main_value_float`. -/
theorem reading_contract (s : MeterState) (arrivals : List (List Nat)) (b : Bool) :
    reading { s with is_new_value := b } arrivals = reading s arrivals
    ∧ ((reading s arrivals).2.is_new_value = false → (reading s arrivals).1 = 0)
    ∧ ((reading s arrivals).2.is_new_value = true →
        (reading s arrivals).1 = (reading s arrivals).2.main_value_float) := by
  refine ⟨rfl, ?_, ?_⟩
  · exact (readingLoop_spec arrivals { s with is_new_value := false } rfl).1
  · exact (readingLoop_spec arrivals { s with is_new_value := false } rfl).2

/-- Witness for C6: with no arrivals the read times out with `0`; with a
valid frame arriving it returns the freshly decoded value. -/
theorem reading_contract_witness :
    (reading initState []).1 = 0
    ∧ (reading initState [frame_mode1_range3]).1
        = (reading initState [frame_mode1_range3]).2.main_value_float :=
  ⟨(reading_contract initState [] true).2.1 (by decide),
   (reading_contract initState [frame_mode1_range3] true).2.2 (by decide)⟩

/-- C2 (amended).  For a checksum-valid byte frame with the overflow bit
clear and in-bounds indices, the decode succeeds and commits
`main_value_float = mainValue * sign * 10 ^ exponent` with
`mainValue = ((frame[5] << 10) & 0x030000) | (frame[7] << 8) | frame[8]`;
`mainValue` lies in [0, 262143] and its top two bits (positions 17–16)
are byte 5's bits 7–6 — not bits 1–0, which the mask `0x030000` never
selects. -/
theorem mantissa_reconstruction (s : MeterState) (d : List Nat)
    (h19 : d.length = 19)
    (h255 : ∀ b ∈ d, b < 256)
    (hc : xor_checksum d = d.getD 18 0)
    (hofl : (d.getD 6 0 >>> 7) &&& 0x01 = 0)
    (hm : d.getD 5 0 &&& 0x1F < MODE_RANGE_LIST.length)
    (hr : d.getD 6 0 &&& 0x0F
        < (MODE_RANGE_LIST.getD (d.getD 5 0 &&& 0x1F) ("", "", [])).2.2.length) :
    (parse_121GW_data s d).2 = false
    ∧ (parse_121GW_data s d).1.main_value_float
        = (((((d.getD 5 0 <<< 10) &&& 0x030000) ||| (d.getD 7 0 <<< 8))
              ||| d.getD 8 0 : ℕ) : ℚ)
          * (if (d.getD 6 0 >>> 6) &&& 0x01 ≠ 0 then (-1 : ℚ) else 1)
          * (10 : ℚ) ^ ((MODE_RANGE_LIST.getD (d.getD 5 0 &&& 0x1F) ("", "", [])).2.2.getD
              (d.getD 6 0 &&& 0x0F) 0)
    ∧ (((d.getD 5 0 <<< 10) &&& 0x030000) ||| (d.getD 7 0 <<< 8)) ||| d.getD 8 0 ≤ 262143
    ∧ ((((d.getD 5 0 <<< 10) &&& 0x030000) ||| (d.getD 7 0 <<< 8)) ||| d.getD 8 0) >>> 16
        = (d.getD 5 0 >>> 6) &&& 0x03
    ∧ (parse_121GW_data s d).1.is_new_value = true := by
  have h7 : d.getD 7 0 < 256 := getD_lt_256 d 7 (by omega) h255
  have h8 : d.getD 8 0 < 256 := getD_lt_256 d 8 (by omega) h255
  have hm' : MODE_RANGE_LIST[d.getD 5 0 &&& 0x1F]?
      = some (MODE_RANGE_LIST.getD (d.getD 5 0 &&& 0x1F) ("", "", [])) :=
    getElem?_eq_some_getD _ _ _ hm
  have hr' : (MODE_RANGE_LIST.getD (d.getD 5 0 &&& 0x1F) ("", "", [])).2.2[d.getD 6 0 &&& 0x0F]?
      = some ((MODE_RANGE_LIST.getD (d.getD 5 0 &&& 0x1F) ("", "", [])).2.2.getD
          (d.getD 6 0 &&& 0x0F) 0) :=
    getElem?_eq_some_getD _ _ _ hr
  refine ⟨?_, ?_, mainValue_le _ _ _ h7 h8, mainValue_top_bits _ _ _ h7 h8, ?_⟩
  · rw [parse_normal s d _ _ hc hm' hr' hofl]
  · rw [parse_normal s d _ _ hc hm' hr' hofl]
  · rw [parse_normal s d _ _ hc hm' hr' hofl]

/-- Witness for C2 at the concrete frame `frame_mode1_range3`. -/
theorem mantissa_reconstruction_witness :
    (parse_121GW_data initState frame_mode1_range3).2 = false
    ∧ (((frame_mode1_range3.getD 5 0 <<< 10) &&& 0x030000)
        ||| (frame_mode1_range3.getD 7 0 <<< 8)) ||| frame_mode1_range3.getD 8 0 ≤ 262143
    ∧ ((((frame_mode1_range3.getD 5 0 <<< 10) &&& 0x030000)
        ||| (frame_mode1_range3.getD 7 0 <<< 8)) ||| frame_mode1_range3.getD 8 0) >>> 16
      = (frame_mode1_range3.getD 5 0 >>> 6) &&& 0x03 := by
  have h := mantissa_reconstruction initState frame_mode1_range3 (by decide) (by decide)
    (by decide) (by decide) (by decide) (by decide)
  exact ⟨h.1, h.2.2.1, h.2.2.2.1⟩

/-- Counterexample for C2 as stated: on `frame_mode1_low`, byte 5's bits
1–0 equal `01` yet the decoded mantissa is `0` (value `0`) — if the top
two mantissa bits came from byte 5 bits 1–0, the mantissa would be
`1 <<< 16 = 65536 ≠ 0`.  The claim's own mask formula takes bits 7–6. -/
theorem mantissa_top_bits_cex :
    xor_checksum frame_mode1_low = frame_mode1_low.getD 18 0
    ∧ frame_mode1_low.getD 5 0 &&& 0x03 = 1
    ∧ (frame_mode1_low.getD 5 0 >>> 6) &&& 0x03 = 0
    ∧ (((frame_mode1_low.getD 5 0 <<< 10) &&& 0x030000)
        ||| (frame_mode1_low.getD 7 0 <<< 8)) ||| frame_mode1_low.getD 8 0 = 0
    ∧ (parse_121GW_data initState frame_mode1_low).1.main_value_float = 0
    ∧ (frame_mode1_low.getD 5 0 &&& 0x03) <<< 16 ≠ 0 := by
  refine ⟨by decide, by decide, by decide, by decide, ?_, by decide⟩
  rw [parse_value_pos initState frame_mode1_low ("V", "Voltage DC (V)", [-4, -3, -2, -1])
    (-4) (by decide) (by decide) (by decide) (by decide) (by decide) 0 (by decide)]
  norm_num
